import Mathlib

/-!
Shallow embedding of `src/api/mcp_app.py` (CrawlnChat): the MCP tool-server
lifecycle and request-dispatch bridge.

The module holds a process-wide nullable global `agent_router`, a tool
`chat_with_content(query)` dispatching to `agent_router.process_query`, and a
start routine `run_mcp_server(init_agent_router=None)` that assigns the global
once, lowers console logging to CRITICAL and hands control to the stdio
transport loop.

The collaborator class `AgentRouter` (src/core/router), the settings module
and the logger live outside the provided sources; they are modelled as opaque
values and behaviours, following the spec where the embedding needs a fact
about them.  Python truthiness of the collaborator object is kept abstract
(a `truthy` field), because `mcp_app.py` guards with `if not agent_router:`
and `init_agent_router if init_agent_router else ...`, both of which test
truthiness rather than `is None`.
-/

/-- Citation records carried in the `sources` list; opaque to this core. -/
abbrev Citation := String

/-- The value returned by the collaborator's `process_query` when it does not
raise: a Python dict with an optional `"response"` key and an optional
`"sources"` key. -/
structure PQResult where
  response? : Option String
  sources? : Option (List Citation)
deriving Repr, DecidableEq

/-- Outcome of one call `agent_router.process_query(query=q)`: either a result
dict, or a raised exception carrying its stringified form `str(e)`. -/
inductive PQOutcome where
  | ok (res : PQResult)
  | raises (msg : String)
deriving Repr, DecidableEq

/-- Modelled from the spec: the collaborator (src/core/router is not among the
provided sources) is an opaque capability `process_query(query) -> {response,
sources?}` configured with an embedding-model identifier.  `truthy` is the
Python truth value `bool(instance)`, kept abstract because the class body is
not available. -/
structure AgentRouter where
  embedding_model : String
  truthy : Bool
  process_query : String → PQOutcome

/-- Python truthiness of the global `agent_router : Optional[AgentRouter]`:
`None` is falsy, an instance has its own truth value.  This is the test
performed by `if not agent_router:` in `chat_with_content` and by
`init_agent_router if init_agent_router else ...` in `run_mcp_server`. -/
def routerTruthy : Option AgentRouter → Bool
  | none => false
  | some r => r.truthy

/-- The tool-invocation result dict built by `chat_with_content`: the three
keys the source ever writes (`"response"`, `"sources"`, `"error"`), each
present or absent. -/
structure ToolDict where
  response? : Option String := none
  sources? : Option (List Citation) := none
  error? : Option String := none
deriving Repr, DecidableEq

/-- Observable outcome of one invocation of `chat_with_content`: the returned
dict, the queries actually passed to the collaborator's `process_query`, the
messages passed to `logger.error`, and the value of the global `agent_router`
when the call returns. -/
structure ChatOutcome where
  dict : ToolDict
  calls : List String
  logs : List String
  router' : Option AgentRouter

/-- Python `str(KeyError(key))` as produced by `result["response"]` on a dict
missing the key: the repr of the key, i.e. the key in single quotes. -/
def pyKeyErrorStr (key : String) : String := "'" ++ key ++ "'"

/-- Embedding of the tool body (src/api/mcp_app.py, lines 42-62):

  if not agent_router:
      return \x7b"error": "Service not initialized"\x7d
  try:
      result = await agent_router.process_query(query=query)
      return \x7b"response": result["response"],
              "sources": result.get("sources", [])\x7d
  except Exception as e:
      logger.error(f"Error in chat: \x7be\x7d")
      return \x7b"error": f"Error processing query: \x7bstr(e)\x7d"\x7d

The first two branches below jointly model `if not agent_router:` (the global
is `None`, or it is an instance whose truth value is false).  A result dict
lacking `"response"` makes the subscript raise `KeyError('response')`, which
the same `except` clause catches.  The function body declares
`global agent_router` but never assigns it, so every branch returns the
global unchanged. -/
def chat_with_content (agent_router : Option AgentRouter) (query : String) :
    ChatOutcome :=
  match agent_router with
  | none =>
      { dict := { error? := some "Service not initialized" },
        calls := [], logs := [], router' := none }
  | some router =>
      if router.truthy = false then
        { dict := { error? := some "Service not initialized" },
          calls := [], logs := [], router' := some router }
      else
        match router.process_query query with
        | .ok res =>
            match res.response? with
            | some resp =>
                { dict := { response? := some resp,
                            sources? := some (res.sources?.getD []) },
                  calls := [query], logs := [], router' := some router }
            | none =>
                { dict := { error? := some ("Error processing query: " ++
                              pyKeyErrorStr "response") },
                  calls := [query],
                  logs := ["Error in chat: " ++ pyKeyErrorStr "response"],
                  router' := some router }
        | .raises msg =>
            { dict := { error? := some ("Error processing query: " ++ msg) },
              calls := [query],
              logs := ["Error in chat: " ++ msg],
              router' := some router }

/-- Modelled from the spec: the default embedding-model identifier
`DEFAULT_EMBEDDING_MODEL` imported from src/core/settings (not among the
provided sources); an opaque configuration string. -/
def DEFAULT_EMBEDDING_MODEL : String := "default-embedding-model"

/-- Observable startup events of `run_mcp_server`, in program order. -/
inductive Event where
  | construct (model : String)
  | adopt
  | setLogging (level : String)
  | enterTransport
  | beginServing
  | logError (msg : String)
deriving Repr, DecidableEq

/-- Behaviour of `mcp.run(transport="stdio")` for one startup, kept abstract
(the FastMCP runtime is an external package): it either raises before the
loop begins serving, or begins serving and later returns normally or raises. -/
inductive TransportBehavior where
  | failsBeforeServing (msg : String)
  | servesThen (result : Except String Unit)

/-- Observable outcome of one call to `run_mcp_server`: whether it returned
normally or raised (with the stringified exception), the final value of the
global `agent_router`, and the ordered event trace. -/
structure RunResult where
  result : Except String Unit
  agent_router : Option AgentRouter
  trace : List Event

/-- The single assignment

  agent_router = (init_agent_router if init_agent_router
                  else AgentRouter(embedding_model=DEFAULT_EMBEDDING_MODEL))

with the constructor's outcome abstract (`construct`: result of
`AgentRouter(embedding_model=DEFAULT_EMBEDDING_MODEL)`, which may raise).
A truthy provided instance short-circuits the conditional expression; a
falsy or absent one makes Python evaluate the constructor call. -/
def selectRouter (construct : Except String AgentRouter)
    (provided : Option AgentRouter) : Except String AgentRouter :=
  if routerTruthy provided = true then
    .ok (provided.getD { embedding_model := "", truthy := false,
                         process_query := fun _ => .raises "" })
  else construct

/-- Events emitted by evaluating the conditional expression above: either the
provided instance is adopted, or the constructor is invoked with the default
embedding-model identifier. -/
def selectTrace (provided : Option AgentRouter) : List Event :=
  if routerTruthy provided = true then [.adopt]
  else [.construct DEFAULT_EMBEDDING_MODEL]

/-- Embedding of `run_mcp_server` (src/api/mcp_app.py, lines 65-99):

  agent_router = (init_agent_router if init_agent_router
                  else AgentRouter(embedding_model=DEFAULT_EMBEDDING_MODEL))
  if not agent_router:
      raise RuntimeError("Shared services must be initialized before "
                         "starting the server")
  try:
      configure_logging("CRITICAL")
      mcp.run(transport="stdio")
  except Exception as e:
      logger.error(f"MCP server failed to start or crashed: \x7be\x7d")
      raise

If the constructor raises, the assignment never completes and the global
keeps its module-load value `None`.  The `raise RuntimeError` sits outside
the `try`, so it propagates uncaught.  `configure_logging("CRITICAL")`
(src/core/logger, modelled from the spec) lowers the ambient console
verbosity to critical-only and is recorded as a `setLogging` event;
`mcp.run` is recorded as `enterTransport` when invoked and `beginServing`
once the loop begins serving.  A transport exception is caught, logged, and
re-raised. -/
def run_mcp_server (construct : Except String AgentRouter)
    (transport : TransportBehavior) (provided : Option AgentRouter) :
    RunResult :=
  match selectRouter construct provided with
  | .error msg =>
      { result := .error msg, agent_router := none,
        trace := selectTrace provided }
  | .ok r =>
      if r.truthy = false then
        { result := .error
            "Shared services must be initialized before starting the server",
          agent_router := some r, trace := selectTrace provided }
      else
        match transport with
        | .failsBeforeServing msg =>
            { result := .error msg, agent_router := some r,
              trace := selectTrace provided ++
                [.setLogging "CRITICAL", .enterTransport,
                 .logError ("MCP server failed to start or crashed: " ++ msg)] }
        | .servesThen (.ok _) =>
            { result := .ok (), agent_router := some r,
              trace := selectTrace provided ++
                [.setLogging "CRITICAL", .enterTransport, .beginServing] }
        | .servesThen (.error msg) =>
            { result := .error msg, agent_router := some r,
              trace := selectTrace provided ++
                [.setLogging "CRITICAL", .enterTransport, .beginServing,
                 .logError ("MCP server failed to start or crashed: " ++ msg)] }

/-- Does an event record an invocation of the `AgentRouter` constructor? -/
def Event.isConstruct : Event → Bool
  | .construct _ => true
  | _ => false

/-- A collaborator stub used by witnesses: truthy, and its `process_query`
returns a dict with a `"response"` value and no `"sources"` key. -/
def stubRouterNoSources : AgentRouter :=
  { embedding_model := "m1", truthy := true,
    process_query := fun _ => .ok { response? := some "R", sources? := none } }

/-- A collaborator stub used by witnesses: truthy, raises on query `"bad"`,
answers normally on any other query. -/
def stubRouterBadGood : AgentRouter :=
  { embedding_model := "m1", truthy := true,
    process_query := fun q =>
      if q = "bad" then .raises "boom"
      else .ok { response? := some "hi", sources? := some [] } }

/-- C1: for every query `q`, if the global `agent_router` is null,
`chat_with_content q` returns exactly the dict
`\x7berror: "Service not initialized"\x7d` and never invokes the collaborator's
`process_query`. -/
theorem chat_null_fast_fail (q : String) :
    (chat_with_content none q).dict =
      { error? := some "Service not initialized" } ∧
    (chat_with_content none q).calls = [] :=
  ⟨rfl, rfl⟩

/-- C2: if the handle holds a (truthy) instance and its `process_query`
returns a result `res` without raising, and `res` carries a `"response"`
value, then `chat_with_content` returns the dict whose `response` is that
value and whose `sources` is the result's `"sources"` value when the key is
present and the empty list otherwise. -/
theorem chat_success_maps_result (router : AgentRouter) (q resp : String)
    (res : PQResult) (ht : router.truthy = true)
    (hpq : router.process_query q = .ok res)
    (hresp : res.response? = some resp) :
    (chat_with_content (some router) q).dict =
      { response? := some resp, sources? := some (res.sources?.getD []),
        error? := none } := by
  simp [chat_with_content, ht, hpq, hresp]

/-- C2 witness: a stub returning `\x7bresponse: "R"\x7d` with no sources field
yields the tool result `\x7bresponse: "R", sources: []\x7d`. -/
theorem chat_success_maps_result_witness :
    (chat_with_content (some stubRouterNoSources) "any").dict =
      { response? := some "R", sources? := some [], error? := none } :=
  chat_success_maps_result stubRouterNoSources "any" "R"
    { response? := some "R", sources? := none } rfl rfl rfl

/-- C3: when the collaborator raises `msg` on query `q`, `chat_with_content`
catches it, logs `"Error in chat: msg"` at error severity, returns exactly
`\x7berror: "Error processing query: msg"\x7d`, leaves the global handle
unchanged, and a subsequent call through the (unchanged) handle on a query
the collaborator answers normally still succeeds normally. -/
theorem chat_failure_contained (router : AgentRouter) (q msg : String)
    (ht : router.truthy = true)
    (hpq : router.process_query q = .raises msg) :
    (chat_with_content (some router) q).dict =
      { error? := some ("Error processing query: " ++ msg) } ∧
    (chat_with_content (some router) q).logs = ["Error in chat: " ++ msg] ∧
    (chat_with_content (some router) q).router' = some router ∧
    (∀ (q₂ resp₂ : String) (res₂ : PQResult),
      router.process_query q₂ = .ok res₂ → res₂.response? = some resp₂ →
      (chat_with_content ((chat_with_content (some router) q).router') q₂).dict =
        { response? := some resp₂, sources? := some (res₂.sources?.getD []),
          error? := none }) := by
  refine ⟨?_, ?_, ?_, ?_⟩
  · simp [chat_with_content, ht, hpq]
  · simp [chat_with_content, ht, hpq]
  · simp [chat_with_content, ht, hpq]
  · intro q₂ resp₂ res₂ h1 h2
    simp [chat_with_content, ht, hpq, h1, h2]

/-- C3 witness: the stub raising `"boom"` on `"bad"` produces the contained
error payload and the log record, and the follow-up call on `"good"` through
the unchanged handle succeeds. -/
theorem chat_failure_contained_witness :
    (chat_with_content (some stubRouterBadGood) "bad").dict =
      { error? := some "Error processing query: boom" } ∧
    (chat_with_content (some stubRouterBadGood) "bad").logs =
      ["Error in chat: boom"] ∧
    (chat_with_content
        ((chat_with_content (some stubRouterBadGood) "bad").router')
        "good").dict =
      { response? := some "hi", sources? := some [], error? := none } := by
  refine ⟨(chat_failure_contained stubRouterBadGood "bad" "boom" rfl rfl).1,
    (chat_failure_contained stubRouterBadGood "bad" "boom" rfl rfl).2.1,
    (chat_failure_contained stubRouterBadGood "bad" "boom" rfl rfl).2.2.2
      "good" "hi" { response? := some "hi", sources? := some [] } rfl rfl⟩

/-- C5: every dict returned by `chat_with_content` is exactly one of the two
shapes: `\x7bresponse, sources\x7d` with no error key, or `\x7berror\x7d`
with neither a response nor a sources key. -/
theorem chat_dict_two_shapes (h : Option AgentRouter) (q : String) :
    (∃ resp srcs, (chat_with_content h q).dict =
        { response? := some resp, sources? := some srcs, error? := none }) ∨
    (∃ msg, (chat_with_content h q).dict =
        { response? := none, sources? := none, error? := some msg }) := by
  cases h with
  | none => exact .inr ⟨"Service not initialized", rfl⟩
  | some router =>
    by_cases ht : router.truthy = false
    · right
      refine ⟨"Service not initialized", ?_⟩
      simp [chat_with_content, ht]
    · rcases hpq : router.process_query q with res | msg
      · rcases hres : res.response? with _ | resp
        · right
          refine ⟨"Error processing query: " ++ pyKeyErrorStr "response", ?_⟩
          simp [chat_with_content, ht, hpq, hres]
        · left
          refine ⟨resp, res.sources?.getD [], ?_⟩
          simp [chat_with_content, ht, hpq, hres]
      · right
        refine ⟨"Error processing query: " ++ msg, ?_⟩
        simp [chat_with_content, ht, hpq]

/-- The instance produced by `AgentRouter(embedding_model=
DEFAULT_EMBEDDING_MODEL)` in witnesses: a truthy instance carrying the
default embedding-model identifier; its query behaviour is irrelevant to the
startup claims. -/
def freshRouter : AgentRouter :=
  { embedding_model := DEFAULT_EMBEDDING_MODEL, truthy := true,
    process_query := fun _ => .raises "opaque" }

/-- A non-null collaborator instance whose Python truth value is false, used
to exercise the truthiness-based guards. -/
def falsyRouter : AgentRouter :=
  { embedding_model := "preinit-model", truthy := false,
    process_query := fun _ => .ok { response? := some "preinit",
                                    sources? := some [] } }

/-- A truthy provided instance short-circuits the conditional assignment. -/
theorem selectRouter_truthy_provided (c : Except String AgentRouter)
    (r : AgentRouter) (h : r.truthy = true) :
    selectRouter c (some r) = .ok r := by
  unfold selectRouter
  rw [if_pos (show routerTruthy (some r) = true from h)]
  rfl

/-- With a falsy or absent provided instance, the assignment takes the
constructor's outcome. -/
theorem selectRouter_construct (cr : AgentRouter) (p : Option AgentRouter)
    (h : routerTruthy p = false) : selectRouter (.ok cr) p = .ok cr := by
  unfold selectRouter
  rw [if_neg (by simp [h])]

/-- The events of the initialization assignment never include a transport
entry. -/
theorem enterTransport_not_mem_selectTrace (p : Option AgentRouter) :
    Event.enterTransport ∉ selectTrace p := by
  unfold selectTrace
  split <;> simp

/-- The events of the initialization assignment never include the serving
point. -/
theorem beginServing_not_mem_selectTrace (p : Option AgentRouter) :
    Event.beginServing ∉ selectTrace p := by
  unfold selectTrace
  split <;> simp

/-- The serving point is absent from a startup trace that ends in a transport
failure before serving. -/
theorem beginServing_not_mem_failTrace (p : Option AgentRouter) (msg : String) :
    Event.beginServing ∉
      selectTrace p ++ [Event.setLogging "CRITICAL", Event.enterTransport,
        Event.logError msg] := by
  intro hmem
  rcases List.mem_append.mp hmem with h | h
  · exact beginServing_not_mem_selectTrace p h
  · simp at h

/-- Logging suppression discipline of a startup trace: every event strictly
before the first `setLogging "CRITICAL"` is not a transport entry (in
particular, a trace with a transport entry must contain the suppression
event earlier). -/
def loggingSuppressedBeforeTransport (tr : List Event) : Bool :=
  (tr.takeWhile (fun e => decide (e ≠ Event.setLogging "CRITICAL"))).all
    (fun e => decide (e ≠ Event.enterTransport))

/-- The initialization events alone satisfy the suppression discipline. -/
theorem loggingSuppressed_selectTrace (p : Option AgentRouter) :
    loggingSuppressedBeforeTransport (selectTrace p) = true := by
  unfold selectTrace loggingSuppressedBeforeTransport
  split <;> rfl

/-- The initialization events followed by the suppression event and any
further events satisfy the suppression discipline. -/
theorem loggingSuppressed_selectTrace_append (p : Option AgentRouter)
    (rest : List Event) :
    loggingSuppressedBeforeTransport
      (selectTrace p ++ (Event.setLogging "CRITICAL" :: rest)) = true := by
  unfold selectTrace loggingSuppressedBeforeTransport
  split <;> rfl

/-- C6: on every startup, the console verbosity is lowered to CRITICAL before
the stdio transport loop is entered: every `run_mcp_server` trace satisfies
the suppression discipline, so the transport is never entered with logging
suppression not yet applied. -/
theorem run_lowers_logging_before_transport (c : Except String AgentRouter)
    (t : TransportBehavior) (p : Option AgentRouter) :
    loggingSuppressedBeforeTransport (run_mcp_server c t p).trace = true := by
  unfold run_mcp_server
  split
  · exact loggingSuppressed_selectTrace p
  · split
    · exact loggingSuppressed_selectTrace p
    · split
      · exact loggingSuppressed_selectTrace_append p _
      · exact loggingSuppressed_selectTrace_append p _
      · exact loggingSuppressed_selectTrace_append p _

/-- C7: startup failures are fatal and the server never reaches the serving
point: if the constructor raises, `run_mcp_server` propagates that failure;
if initialization yields a falsy (invalid) instance, it raises the
`RuntimeError` message; if handing control to the transport loop raises
before serving begins, the failure is propagated after being logged; in all
three cases the trace never contains `beginServing`. -/
theorem run_startup_failures_fatal (c : Except String AgentRouter)
    (t : TransportBehavior) (p : Option AgentRouter) :
    (∀ msg, selectRouter c p = .error msg →
      (run_mcp_server c t p).result = .error msg ∧
      Event.beginServing ∉ (run_mcp_server c t p).trace) ∧
    (∀ r, selectRouter c p = .ok r → r.truthy = false →
      (run_mcp_server c t p).result = .error
        "Shared services must be initialized before starting the server" ∧
      Event.beginServing ∉ (run_mcp_server c t p).trace) ∧
    (∀ msg, (∃ r, selectRouter c p = .ok r ∧ r.truthy = true) →
      t = .failsBeforeServing msg →
      (run_mcp_server c t p).result = .error msg ∧
      Event.beginServing ∉ (run_mcp_server c t p).trace) := by
  refine ⟨?_, ?_, ?_⟩
  · intro msg h
    unfold run_mcp_server
    rw [h]
    exact ⟨rfl, beginServing_not_mem_selectTrace p⟩
  · intro r h htr
    unfold run_mcp_server
    simp only [h]
    rw [if_pos htr]
    exact ⟨rfl, beginServing_not_mem_selectTrace p⟩
  · rintro msg ⟨r, h, htr⟩ ht
    subst ht
    unfold run_mcp_server
    simp only [h]
    rw [if_neg (show ¬r.truthy = false by simp [htr])]
    exact ⟨rfl, beginServing_not_mem_failTrace p _⟩

/-- C7 witness: the three fatal startup paths at concrete inputs: a raising
constructor, a falsy constructed instance, and a transport loop that raises
before serving. -/
theorem run_startup_failures_fatal_witness :
    ((run_mcp_server (.error "ctor exploded") (.servesThen (.ok ())) none).result =
        .error "ctor exploded" ∧
      Event.beginServing ∉
        (run_mcp_server (.error "ctor exploded")
          (.servesThen (.ok ())) none).trace) ∧
    ((run_mcp_server (.ok falsyRouter) (.servesThen (.ok ())) none).result =
        .error
          "Shared services must be initialized before starting the server" ∧
      Event.beginServing ∉
        (run_mcp_server (.ok falsyRouter) (.servesThen (.ok ())) none).trace) ∧
    ((run_mcp_server (.ok freshRouter)
        (.failsBeforeServing "bind failed") none).result = .error "bind failed" ∧
      Event.beginServing ∉
        (run_mcp_server (.ok freshRouter)
          (.failsBeforeServing "bind failed") none).trace) :=
  ⟨(run_startup_failures_fatal (.error "ctor exploded") (.servesThen (.ok ()))
      none).1 "ctor exploded" rfl,
   (run_startup_failures_fatal (.ok falsyRouter) (.servesThen (.ok ()))
      none).2.1 falsyRouter rfl rfl,
   (run_startup_failures_fatal (.ok freshRouter)
      (.failsBeforeServing "bind failed") none).2.2 "bind failed"
      ⟨freshRouter, rfl, rfl⟩ rfl⟩

/-- Once the initialization assignment selects an instance, every path
through `run_mcp_server` leaves the global handle at exactly that instance:
no later statement mutates it. -/
theorem run_agent_router_of_selected (c : Except String AgentRouter)
    (t : TransportBehavior) (p : Option AgentRouter) (r : AgentRouter)
    (hsel : selectRouter c p = .ok r) :
    (run_mcp_server c t p).agent_router = some r := by
  unfold run_mcp_server
  simp only [hsel]
  split
  · rfl
  · split
    · rfl
    · rfl
    · rfl

/-- C8: `chat_with_content` never mutates the global handle, whatever shape
its result takes; and in `run_mcp_server` only the one-time initialization
write determines the handle, which then stays at the written instance. -/
theorem chat_router_frame (h : Option AgentRouter) (q : String) :
    (chat_with_content h q).router' = h ∧
    (∀ (c : Except String AgentRouter) (t : TransportBehavior)
        (p : Option AgentRouter) (r : AgentRouter),
      selectRouter c p = .ok r →
      (run_mcp_server c t p).agent_router = some r) := by
  constructor
  · cases h with
    | none => rfl
    | some router =>
      by_cases htr : router.truthy = false
      · simp [chat_with_content, htr]
      · rcases hpq : router.process_query q with res | msg
        · rcases hres : res.response? with _ | resp <;>
            simp [chat_with_content, htr, hpq, hres]
        · simp [chat_with_content, htr, hpq]
  · intro c t p r hsel
    exact run_agent_router_of_selected c t p r hsel

/-- C8 witness: a concrete dispatch leaves the handle unchanged, and a
concrete startup leaves the handle at the instance the initialization
selected. -/
theorem chat_router_frame_witness :
    (chat_with_content (some freshRouter) "any").router' = some freshRouter ∧
    (run_mcp_server (.ok freshRouter) (.servesThen (.ok ())) none).agent_router =
      some freshRouter :=
  ⟨(chat_router_frame (some freshRouter) "any").1,
   (chat_router_frame (some freshRouter) "any").2 (.ok freshRouter)
     (.servesThen (.ok ())) none freshRouter rfl⟩

/-- C9: the fast-fail guard `if not agent_router:` fires on every falsy
handle value, not only on the null one: whenever the handle's Python truth
value is false (it is `None`, or it holds an instance whose truth value is
false), the call returns `\x7berror: "Service not initialized"\x7d` and the
collaborator is never invoked. -/
theorem chat_fast_fail_on_falsy (h : Option AgentRouter) (q : String)
    (hf : routerTruthy h = false) :
    (chat_with_content h q).dict =
      { error? := some "Service not initialized" } ∧
    (chat_with_content h q).calls = [] := by
  cases h with
  | none => exact ⟨rfl, rfl⟩
  | some r => simp [chat_with_content, show r.truthy = false from hf]

/-- C9 witness: a non-null but falsy instance in the handle is rejected by
the guard exactly like the null handle, with no collaborator call. -/
theorem chat_fast_fail_on_falsy_witness :
    routerTruthy (some falsyRouter) = false ∧
    (chat_with_content (some falsyRouter) "ping").dict =
      { error? := some "Service not initialized" } ∧
    (chat_with_content (some falsyRouter) "ping").calls = [] :=
  ⟨rfl, (chat_fast_fail_on_falsy (some falsyRouter) "ping" rfl).1,
    (chat_fast_fail_on_falsy (some falsyRouter) "ping" rfl).2⟩

/-- A collaborator stub used by witnesses: truthy, and its `process_query`
returns a dict that lacks the `"response"` key (but has sources). -/
def stubRouterNoResponseKey : AgentRouter :=
  { embedding_model := "m1", truthy := true,
    process_query := fun _ => .ok { response? := none,
                                    sources? := some ["s1"] } }

/-- C10: when `process_query` returns without raising but its result dict
lacks the `"response"` key, the subscript `result["response"]` raises
`KeyError('response')`, which the same per-call containment catches: the call
returns the `\x7berror: "Error processing query: 'response'"\x7d` payload
(not a success shape) and logs the failure. -/
theorem chat_missing_response_contained (router : AgentRouter) (q : String)
    (res : PQResult) (ht : router.truthy = true)
    (hpq : router.process_query q = .ok res) (hres : res.response? = none) :
    (chat_with_content (some router) q).dict =
      { error? := some ("Error processing query: " ++
          pyKeyErrorStr "response") } ∧
    (chat_with_content (some router) q).logs =
      ["Error in chat: " ++ pyKeyErrorStr "response"] := by
  constructor <;> simp [chat_with_content, ht, hpq, hres]

/-- C10 witness: a stub whose result has only a sources field produces the
contained KeyError payload and the error-severity log record. -/
theorem chat_missing_response_contained_witness :
    (chat_with_content (some stubRouterNoResponseKey) "q").dict =
      { error? := some "Error processing query: 'response'" } ∧
    (chat_with_content (some stubRouterNoResponseKey) "q").logs =
      ["Error in chat: 'response'"] :=
  chat_missing_response_contained stubRouterNoResponseKey "q"
    { response? := none, sources? := some ["s1"] } rfl rfl rfl

/-- The constructor invocations recorded in a full startup trace are exactly
those of the initialization assignment: nothing after initialization
constructs a collaborator. -/
theorem run_constructs_filter (c : Except String AgentRouter)
    (t : TransportBehavior) (p : Option AgentRouter) :
    (run_mcp_server c t p).trace.filter Event.isConstruct =
      (selectTrace p).filter Event.isConstruct := by
  unfold run_mcp_server
  split
  · rfl
  · split
    · rfl
    · split <;> simp [List.filter_append, Event.isConstruct]

/-- With a truthy provided instance, initialization records no constructor
invocation. -/
theorem selectTrace_filter_truthy (p : Option AgentRouter)
    (h : routerTruthy p = true) :
    (selectTrace p).filter Event.isConstruct = [] := by
  unfold selectTrace
  rw [if_pos h]
  rfl

/-- With a falsy or absent provided instance, initialization records exactly
one constructor invocation, with the default embedding-model identifier. -/
theorem selectTrace_filter_falsy (p : Option AgentRouter)
    (h : routerTruthy p = false) :
    (selectTrace p).filter Event.isConstruct =
      [Event.construct DEFAULT_EMBEDDING_MODEL] := by
  unfold selectTrace
  rw [if_neg (by simp [h])]
  rfl

/-- C4 counterexample: providing a pre-built (non-null) collaborator instance
does not guarantee adoption.  With a provided instance whose Python truth
value is false, `run_mcp_server` evaluates
`AgentRouter(embedding_model=DEFAULT_EMBEDDING_MODEL)` anyway, and the handle
later dispatches observe holds the newly constructed instance (carrying the
default embedding-model identifier), which differs from the provided one. -/
theorem run_provided_instance_not_always_adopted :
    ((run_mcp_server (.ok freshRouter) (.servesThen (.ok ()))
        (some falsyRouter)).trace.filter Event.isConstruct).length = 1 ∧
    Option.map AgentRouter.embedding_model
      (run_mcp_server (.ok freshRouter) (.servesThen (.ok ()))
        (some falsyRouter)).agent_router = some DEFAULT_EMBEDDING_MODEL ∧
    falsyRouter.embedding_model ≠ DEFAULT_EMBEDDING_MODEL :=
  ⟨rfl, rfl, by decide⟩

/-- C4 amended: at startup, a truthy provided instance is adopted with no new
construction and it is the instance the handle holds for later dispatches;
if no instance is provided — or the provided value is falsy — and the
constructor returns an instance, exactly one new collaborator is constructed,
configured with the default embedding-model identifier, and the handle holds
that one constructed instance. -/
theorem run_init_adopts_truthy_or_constructs_once
    (c : Except String AgentRouter) (t : TransportBehavior) :
    (∀ r : AgentRouter, r.truthy = true →
      ((run_mcp_server c t (some r)).trace.filter Event.isConstruct).length
          = 0 ∧
      (run_mcp_server c t (some r)).agent_router = some r) ∧
    (∀ r : AgentRouter, c = .ok r →
      ((run_mcp_server c t none).trace.filter Event.isConstruct).length = 1 ∧
      Event.construct DEFAULT_EMBEDDING_MODEL ∈
        (run_mcp_server c t none).trace ∧
      (run_mcp_server c t none).agent_router = some r) ∧
    (∀ (r₀ r : AgentRouter), r₀.truthy = false → c = .ok r →
      ((run_mcp_server c t (some r₀)).trace.filter Event.isConstruct).length
          = 1 ∧
      (run_mcp_server c t (some r₀)).agent_router = some r) := by
  refine ⟨?_, ?_, ?_⟩
  · intro r htr
    constructor
    · rw [run_constructs_filter,
        selectTrace_filter_truthy (some r) (show routerTruthy (some r) = true
          from htr)]
      rfl
    · exact run_agent_router_of_selected c t (some r) r
        (selectRouter_truthy_provided c r htr)
  · intro r hc
    subst hc
    have hfil := run_constructs_filter (.ok r) t none
    rw [selectTrace_filter_falsy none rfl] at hfil
    refine ⟨by rw [hfil]; rfl, ?_, ?_⟩
    · exact List.mem_of_mem_filter (hfil ▸ List.mem_singleton_self _)
    · exact run_agent_router_of_selected (.ok r) t none r
        (selectRouter_construct r none rfl)
  · intro r₀ r htr₀ hc
    subst hc
    have hfil := run_constructs_filter (.ok r) t (some r₀)
    rw [selectTrace_filter_falsy (some r₀)
      (show routerTruthy (some r₀) = false from htr₀)] at hfil
    refine ⟨by rw [hfil]; rfl, ?_⟩
    exact run_agent_router_of_selected (.ok r) t (some r₀) r
      (selectRouter_construct r (some r₀)
        (show routerTruthy (some r₀) = false from htr₀))

/-- C4 amended witness: a truthy provided instance is adopted unchanged; with
no provided instance the constructed instance is installed after exactly one
construction; the same holds when the provided value is falsy. -/
theorem run_init_adopts_truthy_or_constructs_once_witness :
    (((run_mcp_server (.ok freshRouter) (.servesThen (.ok ()))
        (some stubRouterNoSources)).trace.filter Event.isConstruct).length
          = 0 ∧
      (run_mcp_server (.ok freshRouter) (.servesThen (.ok ()))
        (some stubRouterNoSources)).agent_router = some stubRouterNoSources) ∧
    (((run_mcp_server (.ok freshRouter) (.servesThen (.ok ()))
        none).trace.filter Event.isConstruct).length = 1 ∧
      Event.construct DEFAULT_EMBEDDING_MODEL ∈
        (run_mcp_server (.ok freshRouter) (.servesThen (.ok ())) none).trace ∧
      (run_mcp_server (.ok freshRouter) (.servesThen (.ok ()))
        none).agent_router = some freshRouter) ∧
    (((run_mcp_server (.ok freshRouter) (.servesThen (.ok ()))
        (some falsyRouter)).trace.filter Event.isConstruct).length = 1 ∧
      (run_mcp_server (.ok freshRouter) (.servesThen (.ok ()))
        (some falsyRouter)).agent_router = some freshRouter) :=
  ⟨(run_init_adopts_truthy_or_constructs_once (.ok freshRouter)
      (.servesThen (.ok ()))).1 stubRouterNoSources rfl,
   (run_init_adopts_truthy_or_constructs_once (.ok freshRouter)
      (.servesThen (.ok ()))).2.1 freshRouter rfl,
   (run_init_adopts_truthy_or_constructs_once (.ok freshRouter)
      (.servesThen (.ok ()))).2.2 falsyRouter freshRouter rfl rfl⟩
